import Mathlib

/-!
Shallow embedding of the Ext.ux.grid.Printer render pipeline
(src/ux/grid/Printer.js) together with proofs about its behaviour.

JavaScript values are modelled by the inductive `SVal`; numbers are
modelled by `Rat` (exact arithmetic; IEEE-754 rounding is not modelled
and every concrete number appearing below is a small integer).
JavaScript objects are association lists; reference identity is not
modelled (see `jsLooseEq`). Host-supplied callbacks (column renderers,
header templates, group-header templates) are opaque Lean functions.
-/

namespace GridPrinter

mutual

/-- JavaScript runtime values, as far as the printer manipulates them.
Arrays and objects carry their own list types (`SVals`, `SValObj`) so that
the recursive functions below are structurally recursive and reduce
definitionally. -/
inductive SVal where
  | undefined
  | null
  | nan
  | bool (b : Bool)
  | num (q : Rat)
  | str (s : String)
  | arr (elems : SVals)
  | obj (fields : SValObj)

/-- A JavaScript array's element list. -/
inductive SVals where
  | nil
  | cons (v : SVal) (rest : SVals)

/-- A JavaScript object's ordered field list. -/
inductive SValObj where
  | nil
  | cons (key : String) (v : SVal) (rest : SValObj)

end

instance : Inhabited SVal := ⟨.undefined⟩
instance : Inhabited SVals := ⟨.nil⟩
instance : Inhabited SValObj := ⟨.nil⟩

def listToSVals : List SVal → SVals
  | [] => .nil
  | v :: rest => .cons v (listToSVals rest)

def svalsToList : SVals → List SVal
  | .nil => []
  | .cons v rest => v :: svalsToList rest

/-- Build an array value from a Lean list. -/
def SVal.mkArr (l : List SVal) : SVal := .arr (listToSVals l)

def listToSValObj : List (String × SVal) → SValObj
  | [] => .nil
  | (k, v) :: rest => .cons k v (listToSValObj rest)

/-- Build an object value from a Lean association list. -/
def SVal.mkObj (l : List (String × SVal)) : SVal := .obj (listToSValObj l)

def svalsLength : SVals → Nat
  | .nil => 0
  | .cons _ rest => svalsLength rest + 1

def svalsGet : SVals → Nat → Option SVal
  | .nil, _ => none
  | .cons v _, 0 => some v
  | .cons _ rest, n + 1 => svalsGet rest n

def objFind : SValObj → String → Option SVal
  | .nil, _ => none
  | .cons k v rest, key => if k = key then some v else objFind rest key

mutual

/-- Structural equality on modelled JavaScript values (used only where the
source relies on `indexOf`, i.e. identity of records; records are plain data
here so structural equality is the faithful reading). -/
def SVal.beq : SVal → SVal → Bool
  | .undefined, .undefined => true
  | .null, .null => true
  | .nan, .nan => true
  | .bool a, .bool b => a == b
  | .num a, .num b => decide (a = b)
  | .str a, .str b => a == b
  | .arr a, .arr b => SVals.beq a b
  | .obj a, .obj b => SValObj.beq a b
  | _, _ => false
termination_by structural a => a

def SVals.beq : SVals → SVals → Bool
  | .nil, .nil => true
  | .cons a restA, .cons b restB => SVal.beq a b && SVals.beq restA restB
  | _, _ => false
termination_by structural a => a

def SValObj.beq : SValObj → SValObj → Bool
  | .nil, .nil => true
  | .cons k a restA, .cons l b restB => k == l && SVal.beq a b && SValObj.beq restA restB
  | _, _ => false
termination_by structural a => a

end

instance : BEq SVal := ⟨SVal.beq⟩

/-- Decimal rendering of a modelled number. JavaScript prints floats in
decimal; this model is exact only for integral values, and every number that
reaches a rendered document in the theorems below is integral. -/
def ratToString (q : Rat) : String :=
  if q.den = 1 then toString q.num else toString q.num ++ "/" ++ toString q.den

mutual

/-- JavaScript ToString / ToPrimitive(string) on modelled values
(`String(v)`, string concatenation). -/
def jsPrimString : SVal → String
  | .undefined => "undefined"
  | .null => "null"
  | .nan => "NaN"
  | .bool b => if b then "true" else "false"
  | .num q => ratToString q
  | .str s => s
  | .arr elems => jsArrJoin elems
  | .obj _ => "[object Object]"

/-- `Array.prototype.toString`: elements joined with commas, with null and
undefined elements printed as the empty string. -/
def jsArrJoin : SVals → String
  | .nil => ""
  | .cons v .nil => jsArrElem v
  | .cons v (.cons w rest) => jsArrElem v ++ "," ++ jsArrJoin (.cons w rest)
termination_by structural l => l

def jsArrElem : SVal → String
  | .undefined => ""
  | .null => ""
  | .nan => "NaN"
  | .bool b => if b then "true" else "false"
  | .num q => ratToString q
  | .str s => s
  | .arr elems => jsArrJoin elems
  | .obj _ => "[object Object]"
termination_by structural v => v

end

/-- Parse the digit run of a decimal literal. -/
def natOfDigits (cs : List Char) : Option Nat :=
  match cs with
  | [] => none
  | _ =>
      cs.foldl
        (fun acc c =>
          acc.bind (fun a => if c.isDigit then some (a * 10 + (c.toNat - 48)) else none))
        (some 0)

/-- JavaScript ToNumber on strings, restricted to the integral literals the
printer ever coerces (empty string is 0; fractions, exponents and
whitespace trimming are not modelled and yield NaN). `none` stands for NaN. -/
def strToNumber (s : String) : Option Rat :=
  if s = "" then some 0
  else
    match s.toList with
    | '-' :: rest => (natOfDigits rest).map (fun n => -(n : Rat))
    | cs => (natOfDigits cs).map (fun n => (n : Rat))

/-- JavaScript ToNumber on modelled values; `none` stands for NaN. -/
def jsToNumber : SVal → Option Rat
  | .undefined => none
  | .null => some 0
  | .nan => none
  | .bool b => some (if b then 1 else 0)
  | .num q => some q
  | .str s => strToNumber s
  | .arr elems => strToNumber (jsArrJoin elems)
  | .obj _ => none

/-- JavaScript truthiness. -/
def jsTruthy : SVal → Bool
  | .undefined => false
  | .null => false
  | .nan => false
  | .bool b => b
  | .num q => decide (q ≠ 0)
  | .str s => decide (s ≠ "")
  | .arr _ => true
  | .obj _ => true

/-- Truthiness of an optional configuration string (absent or empty string
is falsy). -/
def jsTruthyOptStr : Option String → Bool
  | none => false
  | some s => decide (s ≠ "")

/-- `Ext.isEmpty` on a `dataIndex` (null/undefined or the empty string). -/
def jsEmptyOptStr : Option String → Bool
  | none => true
  | some s => decide (s = "")

def optStrSVal : Option String → SVal
  | none => .undefined
  | some s => .str s

/-- JavaScript loose equality `==`, restricted to the value shapes the
printer compares. Two objects (or two arrays) compare by reference in
JavaScript; distinct references are assumed here, which is the only case the
source can reach (payload entries versus a group key). -/
def jsLooseEq (a b : SVal) : Bool :=
  match a, b with
  | .str s, .str t => s == t
  | .obj _, .obj _ => false
  | .arr _, .arr _ => false
  | .obj _, .arr _ => false
  | .arr _, .obj _ => false
  | .obj m, .str t => jsPrimString (.obj m) == t
  | .str s, .obj m => s == jsPrimString (.obj m)
  | .arr l, .str t => jsPrimString (.arr l) == t
  | .str s, .arr l => s == jsPrimString (.arr l)
  | .undefined, .undefined => true
  | .undefined, .null => true
  | .null, .undefined => true
  | .null, .null => true
  | .undefined, _ => false
  | _, .undefined => false
  | .null, _ => false
  | _, .null => false
  | a, b =>
      match jsToNumber a, jsToNumber b with
      | some p, some q => decide (p = q)
      | _, _ => false

/-- The test `value == 0` used by the summary renderers. -/
def looseEqZero (v : SVal) : Bool := jsLooseEq v (.num 0)

/-- `Ext.isDefined` is `typeof value !== 'undefined'`: null IS defined. -/
def isUndefined : SVal → Bool
  | .undefined => true
  | _ => false

def isArr : SVal → Bool
  | .arr _ => true
  | _ => false

def isObj : SVal → Bool
  | .obj _ => true
  | _ => false

/-- JavaScript `+`: string (or object/array, whose primitive is a string)
on either side concatenates, otherwise numeric addition with NaN
propagation. -/
def jsAdd (a b : SVal) : SVal :=
  if isStringish a || isStringish b then .str (jsPrimString a ++ jsPrimString b)
  else
    match jsToNumber a, jsToNumber b with
    | some p, some q => .num (p + q)
    | _, _ => .nan
where
  isStringish : SVal → Bool
    | .str _ => true
    | .arr _ => true
    | .obj _ => true
    | _ => false

/-- Member access `v[k]` on a modelled value (undefined on primitives). -/
def jsMember (v : SVal) (k : String) : SVal :=
  match v with
  | .obj fields => (objFind fields k).getD .undefined
  | .arr elems =>
      if k = "length" then .num (svalsLength elems)
      else match k.toNat? with
        | some i => (svalsGet elems i).getD .undefined
        | none => .undefined
  | _ => .undefined

/-- Member access through a possibly-undefined key (`v[fieldName]` where
`fieldName` may be undefined; the property named "undefined" is never set by
this code, so the lookup misses). -/
def jsMemberO (v : SVal) (k : Option String) : SVal :=
  match k with
  | some key => jsMember v key
  | none => .undefined

/-- A record's data object (`Ext.data.Model` data): field name to value. -/
abbrev Record := List (String × SVal)

/-- Assign one field of a data object (JavaScript property assignment:
replace in place, or append in insertion order). -/
def setField (r : Record) (k : String) (v : SVal) : Record :=
  match r with
  | [] => [(k, v)]
  | (k0, v0) :: rest => if k0 = k then (k0, v) :: rest else (k0, v0) :: setField rest k v

/-- `Ext.data.Model.set` called with a single bulk argument: an object merges
its fields, an array merges its indices, a string names a single field set to
undefined, and any other value (notably undefined) iterates nothing. -/
def recordSetObj : Record → SValObj → Record
  | r, .nil => r
  | r, .cons k v rest => recordSetObj (setField r k v) rest

def recordSetArr : Record → Nat → SVals → Record
  | r, _, .nil => r
  | r, i, .cons v rest => recordSetArr (setField r (toString i) v) (i + 1) rest

def recordSet (r : Record) (v : SVal) : Record :=
  match v with
  | .obj fields => recordSetObj r fields
  | .arr elems => recordSetArr r 0 elems
  | .str s => setField r s .undefined
  | _ => r

/-- `Ext.data.Model.get` through a possibly-undefined field name. -/
def recordGetO (r : Record) (k : Option String) : SVal :=
  match k with
  | some key => ((r.find? (fun p => p.1 == key)).map Prod.snd).getD .undefined
  | none => .undefined

/-- Number of positions of `l` (suffixes, the empty one included) at which
`pat` sits as a prefix. -/
def countOccurAux (pat : List Char) : List Char → Nat
  | [] => if pat.isPrefixOf [] then 1 else 0
  | c :: rest => (if pat.isPrefixOf (c :: rest) then 1 else 0) + countOccurAux pat rest

/-- Number of (possibly overlapping) occurrences of `pat` in `s`. -/
def countOccur (s pat : String) : Nat :=
  countOccurAux pat.toList s.toList

/-- The grid's backing `Ext.data.Store`, materialized: the printer reads only
the record range, the grouper field, the model's field list and the proxy
reader's raw payload (`store.getRange()`, `store.isGrouped()`,
`getProxy().getModel().getFields()`, `proxy.reader.rawData`). Tree and
buffered stores are gathered into the same flat record list by `print`
before rendering, so a materialized list models all three store branches. -/
structure Store where
  records : List Record
  groupField : Option String := none
  modelFields : List String := []
  rawData : Option (List (String × SVal)) := none

/-- `store.isGrouped()`: a grouper is configured. -/
def storeIsGrouped (store : Store) : Bool := jsTruthyOptStr store.groupField

/-- `store.indexOf(rcd)`: position of the record, -1 when absent. -/
def storeIndexOf (store : Store) (rcd : Record) : SVal :=
  match store.records.findIdx? (fun r => r == rcd) with
  | some i => .num i
  | none => .num (-1)

/-- The cell metadata object built by the template member functions and
passed both to host renderers and to `getHtml`. Fields mirror the object
literals at lines 387-401, 504-519 and 904-918 of the source; `column` holds
the data projection of the column object (function-valued members of a
column are not representable as `SVal` and are never read back by the
embedded code). -/
structure Meta where
  align : SVal
  cellIndex : SVal
  classes : List SVal := []
  column : SVal := .undefined
  css : String := ""
  innerCls : String := ""
  record : SVal := .undefined
  recordIndex : SVal := .undefined
  style : String := ""
  tdAttr : String := ""
  tdCls : String := ""
  unselectableAttr : String := "unselectable=\"on\""
  value : SVal := .undefined

/-- The argument tuple a host-supplied column renderer (or summary renderer)
receives: `(value, metaData, record, rowIndex, colIndex, store, view)`.
The view argument carries no data the core reads, so it is modelled as a
unit. Renderers are modelled as pure functions; mutation of the meta object
by a host renderer is outside the embedded core. -/
structure RenderArgs where
  value : SVal
  meta : Meta
  record : Record
  rowIndex : Int
  colIndex : Int
  store : Store
  view : Unit

/-- A custom aggregation function handed to `store.aggregate(fn, null,
group, [field])`: it receives the (per-group) record list and the field. -/
def AggFn := List Record → Option String → SVal

/-- `column.summaryType`: absent, a custom function, or a built-in name. -/
inductive SummaryType where
  | undefined
  | fn (f : AggFn)
  | name (s : String)

/-- A grid column as the printer reads it. `xtype` is the empty string for a
plain data column. -/
structure Column where
  id : String := ""
  dataIndex : Option String := none
  text : String := ""
  align : String := "left"
  xtype : String := ""
  hidden : Bool := false
  renderer : Option (RenderArgs → SVal) := none
  tpl : Option (Record → String) := none
  summaryType : SummaryType := .undefined
  summaryRenderer : Option (RenderArgs → SVal) := none

/-- Data projection of a column used where the source stores the column
object into a meta field (`meta.column`); function-valued members are not
representable and are never read back through this projection. -/
def columnSVal (c : Column) : SVal :=
  .mkObj [("id", .str c.id), ("dataIndex", optStrSVal c.dataIndex), ("text", .str c.text),
         ("align", .str c.align), ("xtype", .str c.xtype), ("hidden", .bool c.hidden)]

/-- The record handed to a group-header template by `applyGroupTpl`
(lines 829-868): the group name and children plus the fields the function
adds before applying the host template. -/
structure GroupTplData where
  name : String
  children : List Record
  groupField : Option String
  columnName : SVal
  groupValue : String
  renderedGroupValue : SVal

/-- A view feature as the printer reads it (grouping, groupingsummary or
summary). `groupHeaderTpl` is the host-supplied template, modelled applied. -/
structure Feature where
  ftype : String
  hideGroupedHeader : Bool := false
  groupHeaderTplHtml : String := ""
  groupHeaderTpl : GroupTplData → String := fun _ => ""
  remoteRoot : Option String := none
  summaryRecord : Option Record := none
  showSummaryRow : Bool := true

/-- The grid panel as the printer reads it. `columns` is
`grid.columnManager.getColumns()` (entries can be null, line 198);
`panelColumns` is the `grid.columns` array scanned by `generateBody`;
`rowExpanderTpl` is the rowexpander plugin's `rowBodyTpl`, applied. -/
structure Grid where
  columns : List (Option Column)
  panelColumns : List Column := []
  store : Store
  features : List Feature := []
  title : Option String := none
  rowExpanderTpl : Option (Record → String) := none
  isPanel : Bool := true

/-- `getFeature` (lines 594-621): first feature whose ftype matches; asking
for 'grouping' also accepts 'groupingsummary'. -/
def getFeature (features : List Feature) (featureFType : String) : Option Feature :=
  features.find? (fun f =>
    (featureFType = "grouping" ∧ (f.ftype = "grouping" ∨ f.ftype = "groupingsummary"))
    ∨ (featureFType = "groupingsummary" ∧ f.ftype = "groupingsummary")
    ∨ (featureFType = "summary" ∧ f.ftype = "summary"))

/-- Line 206-208: a rownumberer column with no label gets the label "Row"
(the source mutates the column in place). -/
def withRowText (c : Column) : Column :=
  if c.text = "" then { c with text := "Row" } else c

/-- One step of the column filter in `print` (lines 195-221), for one
non-null column. Branches in source order:
1. non-empty dataIndex, not hidden, dataset not grouped;
2. rownumberer (defaulting its label);
3. templatecolumn;
4. grouped, dataIndex differs (strict `!==`) from the group field, and not
   an actioncolumn. -/
def normStep (isGrouped : Bool) (groupField : Option String) (column : Column) : Option Column :=
  if jsEmptyOptStr column.dataIndex = false ∧ column.hidden = false ∧ isGrouped = false then
    some column
  else if column.xtype = "rownumberer" then some (withRowText column)
  else if column.xtype = "templatecolumn" then some column
  else if isGrouped = true ∧ column.dataIndex ≠ groupField ∧ column.xtype ≠ "actioncolumn" then
    some column
  else none

/-- The full column filter of `print` (lines 195-221): null entries are
skipped, the rest go through `normStep` in order. -/
def normalizeColumns (cols : List (Option Column)) (isGrouped : Bool)
    (groupField : Option String) : List Column :=
  cols.filterMap (fun oc => oc.bind (normStep isGrouped groupField))

/-- `normalizeColumns` with the source position of each emitted column,
starting at `n` (used to state order preservation). -/
def normalizeIndexedFrom (n : Nat) (cols : List (Option Column)) (isGrouped : Bool)
    (groupField : Option String) : List (Nat × Column) :=
  match cols with
  | [] => []
  | oc :: rest =>
      match oc.bind (normStep isGrouped groupField) with
      | some c => (n, c) :: normalizeIndexedFrom (n + 1) rest isGrouped groupField
      | none => normalizeIndexedFrom (n + 1) rest isGrouped groupField

def normalizeIndexed (cols : List (Option Column)) (isGrouped : Bool)
    (groupField : Option String) : List (Nat × Column) :=
  normalizeIndexedFrom 0 cols isGrouped groupField

/-- Group keys in first-encounter order (`Ext.util.GroupCollection` keys;
group keys are the group field's value as a string). The printer relies on
the store being pre-sorted by its grouper, so encounter order is group
order. -/
def storeGroupKeys (store : Store) : List String :=
  (store.records.map (fun r => jsPrimString (recordGetO r store.groupField))).foldl
    (fun acc k => if acc.contains k then acc else acc ++ [k]) []

/-- `store.getGroups()` transformed as in lines 673-681: a list of
`(name, children)` pairs, children in record order. -/
def storeGetGroups (store : Store) : List (String × List Record) :=
  (storeGroupKeys store).map (fun k =>
    (k, store.records.filter (fun r => jsPrimString (recordGetO r store.groupField) == k)))

/-- `Ext.data.Store.count` (external framework built-in): record count,
or a per-group-key count object when `grouped`. -/
def storeCount (store : Store) (grouped : Bool) : SVal :=
  if grouped then
    .mkObj ((storeGetGroups store).map (fun g => (g.1, SVal.num g.2.length)))
  else .num store.records.length

/-- `Ext.data.Store.getSum` over a record list (external framework
built-in): `total += record.get(field)` starting from the number 0. -/
def recordsSum (records : List Record) (field : Option String) : SVal :=
  records.foldl (fun total r => jsAdd total (recordGetO r field)) (.num 0)

/-- JavaScript `<` as used by the store's min/max scans: numeric comparison
after ToNumber, except that two strings compare lexicographically; NaN on
either side compares false. -/
def jsLt (a b : SVal) : Bool :=
  match a, b with
  | .str s, .str t => decide (s < t)
  | a, b =>
      match jsToNumber a, jsToNumber b with
      | some p, some q => decide (p < q)
      | _, _ => false

/-- `Ext.data.Store.getMin` over a record list (external framework
built-in): first value, replaced whenever a later value compares `<`. -/
def recordsMin (records : List Record) (field : Option String) : SVal :=
  match records with
  | [] => .undefined
  | r :: rest =>
      rest.foldl
        (fun m r2 => let v := recordGetO r2 field; if jsLt v m then v else m)
        (recordGetO r field)

/-- `Ext.data.Store.getMax` over a record list (external framework
built-in). -/
def recordsMax (records : List Record) (field : Option String) : SVal :=
  match records with
  | [] => .undefined
  | r :: rest =>
      rest.foldl
        (fun m r2 => let v := recordGetO r2 field; if jsLt m v then v else m)
        (recordGetO r field)

/-- `Ext.data.Store.getAverage` over a record list (external framework
built-in): sum divided by length (JavaScript division coerces the sum with
ToNumber; a non-numeric sum divides to NaN), 0 for an empty list. -/
def recordsAverage (records : List Record) (field : Option String) : SVal :=
  if records.length = 0 then .num 0
  else
    match jsToNumber (recordsSum records field) with
    | some q => .num (q / (records.length : Rat))
    | none => .nan

/-- Lift a flat record-list aggregate to the store, per group when
`grouped`. -/
def storeAgg (store : Store) (grouped : Bool) (f : List Record → Option String → SVal)
    (field : Option String) : SVal :=
  if grouped then
    .mkObj ((storeGetGroups store).map (fun g => (g.1, f g.2 field)))
  else f store.records field

def storeSum (store : Store) (field : Option String) (grouped : Bool) : SVal :=
  storeAgg store grouped recordsSum field

def storeMin (store : Store) (field : Option String) (grouped : Bool) : SVal :=
  storeAgg store grouped recordsMin field

def storeMax (store : Store) (field : Option String) (grouped : Bool) : SVal :=
  storeAgg store grouped recordsMax field

def storeAverage (store : Store) (field : Option String) (grouped : Bool) : SVal :=
  storeAgg store grouped recordsAverage field

/-- `store.aggregate(fn, null, grouped, [field])` (external framework
built-in): the custom function applied to the record list (per group when
grouped). -/
def storeAggregate (store : Store) (f : AggFn) (grouped : Bool)
    (field : Option String) : SVal :=
  storeAgg store grouped f field

namespace FlatTpl

/-!
Member functions of the main document XTemplate, lines 385-591 of the
source (the flat render path).
-/

/-- `getSummary` (lines 533-554): absent/falsy type gives undefined
(JavaScript falls off the function), a function type delegates to
`store.aggregate`, the five built-in names dispatch, any other non-empty
name gives `{}` when grouped and `''` otherwise. -/
def getSummary (store : Store) (type : SummaryType) (field : Option String)
    (group : Bool) : SVal :=
  match type with
  | .undefined => .undefined
  | .fn f => storeAggregate store f group field
  | .name s =>
      if s = "" then .undefined
      else if s = "count" then storeCount store group
      else if s = "min" then storeMin store field group
      else if s = "max" then storeMax store field group
      else if s = "sum" then storeSum store field group
      else if s = "average" then storeAverage store field group
      else if group then .mkObj [] else .str ""

/-- The cell wrapper emitted by `getHtml` (lines 560-587) up to and
including the `>` before the value: optional class attribute (only merged
and emitted inside the `if (meta.css)` block in this variant), optional
extra attributes, alignment-driven inline style. -/
def cellOpen (meta : Meta) : String :=
  let tdClasses := if jsTruthy (.str meta.tdCls) = true then meta.tdCls else ""
  let classAttr :=
    if jsTruthy (.str meta.css) = true then
      let tdClasses2 :=
        if tdClasses.length > 0 then tdClasses ++ " " ++ meta.css else meta.css
      if tdClasses2.length > 0 then "class=\"" ++ tdClasses2 ++ "\"" else ""
    else ""
  "<td " ++ classAttr
    ++ (if jsTruthy (.str meta.tdAttr) = true then " " ++ meta.tdAttr else "")
    ++ "><div "
    ++ (if jsTruthy (.str meta.innerCls) = true then "class=\"" ++ meta.innerCls ++ "\"" else "")
    ++ " style=\"text-align: " ++ jsPrimString meta.align ++ ";"
    ++ meta.style
    ++ "\" "
    ++ meta.unselectableAttr
    ++ ">"

/-- `getHtml` (lines 555-590): an UNdefined value (null is defined!) is
replaced by the non-breaking-space entity, then the cell wrapper is emitted
around the stringified value. -/
def getHtml (value : SVal) (meta : Meta) : String :=
  let value2 := match value with
    | .undefined => SVal.str "&nbsp;"
    | v => v
  cellOpen meta ++ jsPrimString value2 ++ "</div></td>"

/-- The meta object built by `renderColumn` (lines 387-401). `col` is the
1-based template index `xindex`. -/
def mkMeta (grid : Grid) (column : Column) (value : SVal) (rcd : Record)
    (col : Nat) : Meta :=
  { align := .str column.align
    cellIndex := .num col
    classes := []
    column := columnSVal column
    css := ""
    innerCls := ""
    record := .mkObj rcd
    recordIndex := storeIndexOf grid.store rcd
    style := ""
    tdAttr := ""
    tdCls := ""
    unselectableAttr := "unselectable=\"on\""
    value := value }

/-- `renderColumn` (lines 385-415): a templatecolumn takes its template
applied to the record's data (falling back to the raw value when no
template is configured); otherwise a configured renderer is invoked with
`(value, meta, rcd, -1, col - 1, store, view)` and its result replaces the
value (the tree-column branch at line 406 changes only the `this` receiver,
which pure functions do not model). The final value goes through
`getHtml`. -/
def renderColumn (grid : Grid) (column : Column) (value : SVal) (rcd : Record)
    (col : Nat) : String :=
  let meta := mkMeta grid column value rcd col
  let value2 :=
    if column.xtype = "templatecolumn" then
      match column.tpl with
      | some t => SVal.str (t rcd)
      | none => value
    else
      match column.renderer with
      | some r =>
          r { value := value, meta := meta, record := rcd, rowIndex := -1,
              colIndex := (col : Int) - 1, store := grid.store, view := () }
      | none => value
  getHtml value2 meta

/-- `getSummaryObject42` of the main template (lines 504-519). Its four
parameters are `SVal`s because the call at line 453 passes only two
arguments, shifting `column` into `value` and the numeric `colIndex` into
`column` (so `column.align` reads a member of a number: undefined). -/
def getSummaryObject42 (value column colIndex rcd : SVal) : Meta :=
  { align := jsMember column ("align")
    cellIndex := colIndex
    column := column
    classes := []
    css := ""
    innerCls := ""
    record := rcd
    recordIndex := .num (-1)
    style := ""
    tdAttr := ""
    tdCls := ""
    unselectableAttr := "unselectable=\"on\""
    value := value }

/-- The summary record built for a remote summary feature (lines 424-432
and 480-488): the feature's record, or a fresh model instance, populated
from the raw payload under `remoteRoot` (the first element when that
payload is an array). -/
def remoteSummaryRecordFlat (grid : Grid) (sf : Feature) : Record :=
  let summaryRecord := sf.summaryRecord.getD []
  match grid.store.rawData with
  | some raw =>
      let payload := jsMember (.mkObj raw) (sf.remoteRoot.getD "")
      match payload with
      | .arr elems => recordSet summaryRecord ((svalsGet elems 0).getD .undefined)
      | p => recordSet summaryRecord p
  | none => summaryRecord

/-- `getSummaryRecord42` of the main template (lines 477-503): for a remote
feature, the populated remote record; otherwise a fresh record receiving
every column's defined aggregate under its dataIndex. -/
def getSummaryRecord42 (grid : Grid) (sf : Feature) (columns : List Column) : Record :=
  if jsTruthyOptStr sf.remoteRoot = true then remoteSummaryRecordFlat grid sf
  else
    columns.foldl
      (fun rcd c =>
        let valueObject := getSummary grid.store c.summaryType c.dataIndex false
        if isUndefined valueObject = true then rcd
        else
          match c.dataIndex with
          | some f => setField rcd f valueObject
          | none => rcd)
      []

/-- `getSummaryObject` of the main template (lines 462-476). Dead code kept
for fidelity; note the inverted guard at line 467: a DEfined aggregate is
skipped and an undefined one is stored. -/
def getSummaryObject (grid : Grid) (columns : List Column) (align : String) : SVal :=
  let summaryValues :=
    columns.foldl
      (fun acc c =>
        let valueObject := getSummary grid.store c.summaryType c.dataIndex false
        if isUndefined valueObject = false then acc
        else setField acc c.id valueObject)
      []
  .mkObj (setField summaryValues ("style") (.str ("text-align:" ++ align ++ ";")))

/-- `renderSummary` of the main template (lines 420-461): the value comes
from the remote summary record or from `getSummary` in flat mode; a custom
summaryRenderer takes precedence (invoked with `(value, summaryObject,
summaryRcd, -1, colIndex, store, view)`), otherwise an undefined or
loosely-zero value renders as the placeholder and anything else renders
verbatim. The meta for the non-renderer branch comes from the two-argument
call to `getSummaryObject42` (line 453). -/
def renderSummary (grid : Grid) (sf : Feature) (columns : List Column)
    (column : Column) (colIndex : Nat) : String :=
  let value :=
    if jsTruthyOptStr sf.remoteRoot = true then
      recordGetO (remoteSummaryRecordFlat grid sf) column.dataIndex
    else getSummary grid.store column.summaryType column.dataIndex false
  match column.summaryRenderer with
  | some r =>
      let summaryRcd := getSummaryRecord42 grid sf columns
      let summaryObject := getSummaryObject42 value (columnSVal column) (.num colIndex) (SVal.mkObj summaryRcd)
      let value2 :=
        r { value := value, meta := summaryObject, record := summaryRcd, rowIndex := -1,
            colIndex := colIndex, store := grid.store, view := () }
      getHtml value2 summaryObject
  | none =>
      let meta := getSummaryObject42 (columnSVal column) (.num colIndex) .undefined .undefined
      if isUndefined value = true ∨ looseEqZero value = true then
        getHtml (.str "&nbsp;") meta
      else getHtml value meta

end FlatTpl

namespace GroupTpl

/-!
Member functions of the grouped body XTemplate, lines 683-976 of the
source. The guard at line 631 makes the grouped branch of `generateBody`
unreachable (see `generateBody_always_flat` below), so this code is dead in
the program; it is embedded faithfully nonetheless. Runtime exceptions
(`Ext.isDefomed`, line 892) surface as `Except.error`.
-/

/-- `getSummary` of the grouped template (lines 932-955): same dispatch as
the flat variant, written with an early return on a falsy type. -/
def getSummary (store : Store) (type : SummaryType) (field : Option String)
    (group : Bool) : SVal :=
  match type with
  | .undefined => .undefined
  | .fn f => storeAggregate store f group field
  | .name s =>
      if s = "" then .undefined
      else if s = "count" then storeCount store group
      else if s = "min" then storeMin store field group
      else if s = "max" then storeMax store field group
      else if s = "sum" then storeSum store field group
      else if s = "average" then storeAverage store field group
      else if group then .mkObj [] else .str ""

/-- The cell wrapper of the grouped `getHtml` (lines 746-780): unlike the
flat variant, the class attribute is emitted whenever the merged class
string is non-empty, even when `meta.css` is empty. -/
def cellOpen (meta : Meta) : String :=
  let tdClasses := if jsTruthy (.str meta.tdCls) = true then meta.tdCls else ""
  let tdClasses2 :=
    if jsTruthy (.str meta.css) = true then
      if tdClasses.length > 0 then tdClasses ++ " " ++ meta.css else meta.css
    else tdClasses
  let classAttr :=
    if tdClasses2.length > 0 then "class=\"" ++ tdClasses2 ++ "\"" else ""
  "<td " ++ classAttr
    ++ (if jsTruthy (.str meta.tdAttr) = true then " " ++ meta.tdAttr else "")
    ++ "><div "
    ++ (if jsTruthy (.str meta.innerCls) = true then "class=\"" ++ meta.innerCls ++ "\"" else "")
    ++ " style=\"text-align: " ++ jsPrimString meta.align ++ ";"
    ++ meta.style
    ++ "\" "
    ++ meta.unselectableAttr
    ++ ">"

/-- `getHtml` of the grouped template (lines 741-782). -/
def getHtml (value : SVal) (meta : Meta) : String :=
  let value2 := match value with
    | .undefined => SVal.str "&nbsp;"
    | v => v
  cellOpen meta ++ jsPrimString value2 ++ "</div></td>"

/-- The meta object built by the grouped `renderColumn` (lines 720-734). -/
def mkMeta (grid : Grid) (column : Column) (value : SVal) (rcd : Record)
    (col : Nat) : Meta :=
  { align := .str column.align
    cellIndex := .num col
    classes := []
    column := columnSVal column
    css := ""
    innerCls := ""
    record := .mkObj rcd
    recordIndex := storeIndexOf grid.store rcd
    style := ""
    tdAttr := ""
    tdCls := ""
    unselectableAttr := "unselectable=\"on\""
    value := value }

/-- `renderColumn` of the grouped template (lines 718-739): no
templatecolumn branch; a configured renderer is invoked with
`(value, meta, rcd, -1, col - 1, store, view)`. -/
def renderColumn (grid : Grid) (column : Column) (value : SVal) (rcd : Record)
    (col : Nat) : String :=
  let meta := mkMeta grid column value rcd col
  let value2 :=
    match column.renderer with
    | some r =>
        r { value := value, meta := meta, record := rcd, rowIndex := -1,
            colIndex := (col : Int) - 1, store := grid.store, view := () }
    | none => value
  getHtml value2 meta

/-- `getSummaryRcd` (lines 957-974): an array payload is scanned in order
for the first entry whose `fieldName` member is truthy AND loosely equal to
`value`; no match (or an exhausted scan) yields undefined. A non-array
payload is returned itself when its `data[fieldName]` member is truthy. -/
def getSummaryRcdScan (items : SVals) (fieldName : Option String) (value : SVal) : SVal :=
  match items with
  | .nil => .undefined
  | .cons it rest =>
      if jsTruthy (jsMemberO it fieldName) = true ∧ jsLooseEq (jsMemberO it fieldName) value = true
      then it
      else getSummaryRcdScan rest fieldName value

def getSummaryRcd (rawDataObject : SVal) (fieldName : Option String) (value : SVal) : SVal :=
  match rawDataObject with
  | .arr items => getSummaryRcdScan items fieldName value
  | raw =>
      if jsTruthy (jsMemberO (jsMember raw ("data")) fieldName) = true then raw else .undefined

/-- `getSummaryRecord42` of the grouped template (lines 887-903): the loop
body calls the nonexistent `Ext.isDefomed` (line 892), so any iteration
raises a TypeError; only an empty column list returns the fresh record. -/
def getSummaryRecord42 (columns : List Column) : Except String Record :=
  match columns with
  | [] => .ok []
  | _ :: _ => .error "TypeError: Ext.isDefomed is not a function"

/-- `getSummaryObject42` of the grouped template (lines 904-918): correct
two-argument arity here, but its `record` member is built by the throwing
`getSummaryRecord42`. -/
def getSummaryObject42 (columns : List Column) (column : Column) (colIndex : Nat) :
    Except String Meta := do
  let rcd ← getSummaryRecord42 columns
  pure
    { align := .str column.align
      cellIndex := .num colIndex
      classes := []
      css := ""
      innerCls := ""
      record := .mkObj rcd
      recordIndex := .num (-1)
      style := ""
      tdAttr := ""
      tdCls := ""
      unselectableAttr := "unselectable=\"on\""
      value := .str "&#160;" }

/-- The summary record for a remote grouping summary (lines 790-798): the
feature's record or a fresh model instance, populated from the matching
entry of an array payload (looked up by the store's group field against the
current group name) or from a single-object payload directly. -/
def remoteSummaryRecord (grid : Grid) (sf : Feature) (groupName : String) : Record :=
  let summaryRecord := sf.summaryRecord.getD []
  match grid.store.rawData with
  | some raw =>
      let payload := jsMember (.mkObj raw) (sf.remoteRoot.getD "")
      match payload with
      | .arr elems =>
          recordSet summaryRecord
            (getSummaryRcd (.arr elems) grid.store.groupField (.str groupName))
      | p => recordSet summaryRecord p
  | none => summaryRecord

/-- `renderSummary` of the grouped template (lines 784-828): the value
comes from the remote record or from the grouped `getSummary`; an object
value is projected at the current group name; a custom summaryRenderer path
builds `getSummaryObject42`/`getSummaryRecord42` (which throw, line 892)
then renders through `getHtml`; otherwise an undefined or loosely-zero
value becomes the placeholder and the bare cell markup of line 827 is
returned. -/
def renderSummary (grid : Grid) (sf : Feature) (columns : List Column)
    (groupName : String) (column : Column) (colIndex : Nat) : Except String String :=
  let value :=
    if jsTruthyOptStr sf.remoteRoot = true then
      recordGetO (remoteSummaryRecord grid sf groupName) column.dataIndex
    else getSummary grid.store column.summaryType column.dataIndex (storeIsGrouped grid.store)
  let value2 := if isObj value = true then jsMember value groupName else value
  match column.summaryRenderer with
  | some r => do
      let summaryObject ← getSummaryObject42 columns column colIndex
      let summaryObject2 ← getSummaryObject42 columns column colIndex
      let rcd42 ← getSummaryRecord42 columns
      let value3 :=
        r { value := value2, meta := summaryObject2, record := rcd42, rowIndex := -1,
            colIndex := colIndex, store := grid.store, view := () }
      pure (getHtml value3 summaryObject)
  | none =>
      let value3 :=
        if isUndefined value2 = true ∨ looseEqZero value2 = true then SVal.str "&nbsp;"
        else value2
      pure ("<td><div>" ++ jsPrimString value3 ++ "</div></td>")

/-- `applyGroupTpl` (lines 829-868): extends the group record with
`groupField`, `columnName` (the template object has no `groupField` member,
so the fallback at line 855 reads undefined), `groupValue` and
`renderedGroupValue` (the group column's renderer applied to the group name
and the first child, with arguments `(name, meta, children[0], -1, -1,
store, view)`), then applies the host group-header template. -/
def applyGroupTpl (grid : Grid) (gf : Feature) (groupColumn : Option Column)
    (name : String) (children : List Record) : String :=
  let meta : Meta :=
    { align := .str ""
      cellIndex := .num (-1)
      classes := []
      column := match groupColumn with
        | some c => columnSVal c
        | none => .undefined
      css := ""
      innerCls := ""
      record := match children.head? with
        | some r => .mkObj r
        | none => .undefined
      recordIndex := match children.head? with
        | some r => storeIndexOf grid.store r
        | none => .num (-1)
      style := ""
      tdAttr := ""
      tdCls := ""
      unselectableAttr := "unselectable=\"on\""
      value := .str name }
  let columnName : SVal :=
    match groupColumn with
    | some c => .str c.text
    | none => .undefined
  let renderedGroupValue : SVal :=
    match groupColumn with
    | some c =>
        match c.renderer with
        | some r =>
            r { value := .str name, meta := meta, record := children.headD [],
                rowIndex := -1, colIndex := -1, store := grid.store, view := () }
        | none => .str name
    | none => .str name
  gf.groupHeaderTpl
    { name := name, children := children, groupField := grid.store.groupField,
      columnName := columnName, groupValue := name,
      renderedGroupValue := renderedGroupValue }

/-- Application of the grouped body template (lines 683-704) over the
transformed groups: per group a group-header row, the children rows with a
1-based parity class that restarts in each group, and, when a
groupingsummary feature with a visible summary row is present, a summary
row with one cell per column. `applyGroupTpl` sets the template's mutable
`groupName` before the group's summary cells render, modelled by passing
the group's name down. -/
def applyGroupedBody (grid : Grid) (columns : List Column) (gf : Feature)
    (groupColumn : Option Column) (gsf : Option Feature)
    (groups : List (String × List Record)) : Except String String :=
  groups.foldlM
    (fun acc g => do
      let headerRow :=
        "<tr class=\"group-header\"><td colspan=\"" ++ toString columns.length ++ "\">"
          ++ applyGroupTpl grid gf groupColumn g.1 g.2 ++ "</td></tr>"
      let childRows :=
        (g.2.enum.map
          (fun p =>
            "<tr class=\"" ++ (if (p.1 + 1) % 2 = 0 then "even" else "odd") ++ "\">"
              ++ String.join
                ((columns.enum.map
                  (fun q =>
                    renderColumn grid q.2 (recordGetO p.2 q.2.dataIndex) p.2 (q.1 + 1))))
              ++ "</tr>"))
      let summaryRow ←
        match gsf with
        | some sf =>
            if sf.showSummaryRow then do
              let cells ← (columns.enum.mapM
                (fun q => renderSummary grid sf columns g.1 q.2 (q.1 + 1)))
              pure ("<tr>" ++ String.join cells ++ "</tr>")
            else pure ""
        | none => pure ""
      pure (acc ++ headerRow ++ String.join childRows ++ summaryRow))
    ""

end GroupTpl

/-- The flat body template string returned by `generateBody` (lines
632-638): the three template fragments joined with the empty string. -/
def flatBodyTpl : String :=
  "<tpl for=\"this.columns\">"
    ++ "\x7b[ this.renderColumn(values, parent.get(values.dataIndex), parent, xindex) ]\x7d"
    ++ "</tpl>"

/-- The grouped branch of `generateBody` (lines 641-978), entered only when
the guard at line 631 fails (it never does): fetch the groups, find the
group column by loose equality on dataIndex (last match wins), bail out
(returning undefined) when the group field is falsy, filter the group field
out of the model fields when the header hides it (the filtered list is then
never used, as in the source), and apply the grouped body template. -/
def generateBodyGrouped (grid : Grid) (columns : List Column) (gf : Feature)
    (gsf : Option Feature) : Except String (Option String) :=
  let groups := if grid.isPanel then storeGetGroups grid.store else []
  let hideGroupField := gf.hideGroupedHeader
  let groupField := grid.store.groupField
  let groupColumn :=
    grid.panelColumns.foldl
      (fun acc col =>
        if jsLooseEq (optStrSVal col.dataIndex) (optStrSVal groupField) = true then some col
        else acc)
      none
  if jsTruthyOptStr groupField = false then .ok none
  else
    let _fields :=
      if hideGroupField then
        grid.store.modelFields.filter
          (fun n => jsLooseEq (.str n) (optStrSVal groupField) = false)
      else grid.store.modelFields
    let _html := gf.groupHeaderTplHtml
    (GroupTpl.applyGroupedBody grid columns gf groupColumn gsf groups).map some

/-- Arrays are truthy in JavaScript (`!groups` in the guard at line 631 is
always false). -/
def jsTruthyArr (_groups : List (String × List Record)) : Bool := true

/-- `generateBody` (lines 623-979). The local `groups` is initialized to
the empty array (line 624) and the guard at line 631 reads it BEFORE line
642 would populate it, so `!groups.length` is always true and the function
returns the flat per-column body template for every input. The grouped
branch is embedded nonetheless. `Except.error` models a thrown exception,
`none` models the bare `return;` at line 655. -/
def generateBody (grid : Grid) (columns : List Column) (groupFeature : Option Feature) :
    Except String (Option String) :=
  let groups : List (String × List Record) := []
  let _fields := grid.store.modelFields
  let _hideGroupField := true
  let groupingSummaryFeature := getFeature grid.features "groupingsummary"
  let store := grid.store
  if storeIsGrouped store = false ∨ jsTruthyArr groups = false ∨ groups.length = 0
      ∨ groupFeature.isNone = true then
    .ok (some flatBodyTpl)
  else
    match groupFeature with
    | some gf => generateBodyGrouped grid columns gf groupingSummaryFeature
    | none => .ok none

/-- The default `headerTpl` of the config (lines 128-132), applied: one
`<th>` per column with its alignment and label. -/
def defaultHeaderTpl (cols : List Column) : String :=
  String.join
    (cols.map (fun c => "<th style=\"text-align: " ++ c.align ++ "\">" ++ c.text ++ "</th>"))

/-- The printer object's caller-visible configuration (lines 87-133).
`headerTpl` is the caller-configurable heading template: `Ext.create` on a
structurally invalid template throws at build time, modelled as
`Except.error`; a valid one compiles to a function from the column list to
the headings markup. -/
structure Printer where
  stylesheetPath : String := "ux/grid/gridPrinterCss/print.css"
  pageTitle : String := "Print View"
  mainTitle : String := ""
  printLinkText : String := "Print"
  closeLinkText : String := "Close"
  headerTpl : Except String (List Column → String) := .ok defaultHeaderTpl

/-- The document chrome of `getHtmlMarkup` (lines 345-357): doctype, head
with stylesheet link and title (`grid.title || pageTitle`), the print/close
links and the main title. `Ext.baseCSSPrefix` is "x-". -/
def docChrome (p : Printer) (grid : Grid) : String :=
  "<!DOCTYPE html PUBLIC \"-//W3C//DTD XHTML 1.0 Transitional//EN\" \"http://www.w3.org/TR/xhtml1/DTD/xhtml1-transitional.dtd\">"
    ++ "<html class=\"x-ux-grid-printer\">"
    ++ "<head>"
    ++ "<meta content=\"text/html; charset=UTF-8\" http-equiv=\"Content-Type\" />"
    ++ "<link href=\"" ++ p.stylesheetPath ++ "\" rel=\"stylesheet\" type=\"text/css\" />"
    ++ "<title>" ++ (if jsTruthy (optStrSVal grid.title) = true then grid.title.getD "" else p.pageTitle) ++ "</title>"
    ++ "</head>"
    ++ "<body class=\"x-ux-grid-printer-body\">"
    ++ "<div class=\"x-ux-grid-printer-noprint x-ux-grid-printer-links\">"
    ++ "<a class=\"x-ux-grid-printer-linkprint\" href=\"javascript:void(0);\" onclick=\"window.print();\">"
    ++ p.printLinkText ++ "</a>"
    ++ "<a class=\"x-ux-grid-printer-linkclose\" href=\"javascript:void(0);\" onclick=\"window.close();\">"
    ++ p.closeLinkText ++ "</a>"
    ++ "</div>"
    ++ "<h1>" ++ p.mainTitle ++ "</h1>"

/-- The body rows the applied main template emits (lines 362-368):
one `<tr>` per record with the parity class `xindex % 2` (even/odd on the
1-based index), one cell per column through `renderColumn`
(`parent.get(values.dataIndex)` is the record's field at the column's
dataIndex), an optional rowexpander detail row with the same parity
spanning all columns; the inline `{% if (this.isGrouped && xindex > 0)
break; %}` at line 367 stops after the first record whenever the grouping
flag is truthy. The body placeholder of the assembled template is the flat
per-column template for every input (`generateBody` returns it always, see
`generateBody_always_flat`), which this function hand-evaluates. -/
def documentBodyRows (grid : Grid) (columns : List Column) (isGroupedTruthy : Bool)
    (records : List Record) (expanderTpl : Option (Record → String)) : List String :=
  let rows := if isGroupedTruthy then records.take 1 else records
  rows.enum.map
    (fun p =>
      let parity := if (p.1 + 1) % 2 = 0 then "even" else "odd"
      "<tr class=\"" ++ parity ++ "\">"
        ++ String.join
          (columns.enum.map
            (fun q => FlatTpl.renderColumn grid q.2 (recordGetO p.2 q.2.dataIndex) p.2 (q.1 + 1)))
        ++ "</tr>"
        ++ (match expanderTpl with
            | some t =>
                "<tr class=\"" ++ parity ++ "\"><td colspan=\"" ++ toString columns.length ++ "\">"
                  ++ t p.2 ++ "</td></tr>"
            | none => ""))

/-- The cells of the trailing summary row (lines 371-373): one
`renderSummary` cell per column at its 1-based template index. -/
def summaryRowCells (grid : Grid) (sf : Feature) (columns : List Column) : List String :=
  columns.enum.map (fun q => FlatTpl.renderSummary grid sf columns q.2 (q.1 + 1))

/-- The trailing summary section of the main template (lines 369-375): when
a summary feature object exists, one row with one `renderSummary` cell per
column at its 1-based index. -/
def documentSummaryRows (grid : Grid) (columns : List Column)
    (summaryFeature : Option Feature) : List String :=
  match summaryFeature with
  | some sf => ["<tr>" ++ String.join (summaryRowCells grid sf columns) ++ "</tr>"]
  | none => []

/-- All rows of the document table: the heading row wrapping the applied
headerTpl (lines 359-361), the body rows and the trailing summary rows. -/
def documentRows (grid : Grid) (columns : List Column) (isGroupedTruthy : Bool)
    (records : List Record) (headings : String) (expanderTpl : Option (Record → String))
    (summaryFeature : Option Feature) : List String :=
  ("<tr>" ++ headings ++ "</tr>")
    :: (documentBodyRows grid columns isGroupedTruthy records expanderTpl
        ++ documentSummaryRows grid columns summaryFeature)

/-- The complete markup string of the applied main template. -/
def assembleDocument (p : Printer) (grid : Grid) (columns : List Column)
    (isGroupedTruthy : Bool) (records : List Record) (headings : String)
    (expanderTpl : Option (Record → String)) (summaryFeature : Option Feature) : String :=
  docChrome p grid
    ++ "<table>"
    ++ String.join (documentRows grid columns isGroupedTruthy records headings expanderTpl summaryFeature)
    ++ "</table>"
    ++ "</body>"
    ++ "</html>"

/-- The grouping flag and grouping feature `print` resolves at lines
182-191: grouping holds only when the store is grouped AND a grouping
feature exists on the view. -/
def resolveGrouping (grid : Grid) : Bool × Option Feature :=
  if storeIsGrouped grid.store = true then
    match getFeature grid.features "grouping" with
    | some f => (true, some f)
    | none => (false, none)
  else (false, none)

/-- The data pipeline of `print` (lines 167-266) and the application of
`getHtmlMarkup`'s template (lines 317-593), up to the markup string handed
to the print window. Grouping is resolved, the columns filtered
(`feature.getGroupField()` delegates to the store's grouper), the records
materialized (`store.getRange()`; tree and buffered stores gather into the
same list), and the main template is built and applied. The call at line
266 passes the grouping FEATURE into `getHtmlMarkup`'s `isGrouped`
parameter (one extra argument), so the template's grouping flag is the
feature object's truthiness — which coincides with the resolved flag.
Window handling, events and stylesheet path resolution are host-side and
out of scope. The normalized column list the `print` pipeline hands to the
template: -/
def printColumns (grid : Grid) : List Column :=
  normalizeColumns grid.columns (resolveGrouping grid).1
    (if (resolveGrouping grid).1 then grid.store.groupField else none)

/-- The complete document string for a given compiled heading template:
everything of the pipeline after the template build steps. -/
def printedDoc (p : Printer) (grid : Grid) (headerFn : List Column → String) : String :=
  assembleDocument p grid (printColumns grid) (resolveGrouping grid).2.isSome
    grid.store.records (headerFn (printColumns grid)) grid.rowExpanderTpl
    (getFeature grid.features "summary")

def printDocument (p : Printer) (grid : Grid) : Except String String := do
  let feature := (resolveGrouping grid).2
  let groupFeature :=
    if feature.isSome then getFeature grid.features "grouping" else none
  let _body ← generateBody grid (printColumns grid) groupFeature
  let headings ← p.headerTpl
  pure (printedDoc p grid headings)

/-!  Helper lemmas (shared by the claim theorems below). -/

/-- The guard at line 631 reads the freshly-initialized empty `groups`, so
`generateBody` takes the flat branch for every input. -/
theorem generateBody_eq_flat (grid : Grid) (columns : List Column)
    (groupFeature : Option Feature) :
    generateBody grid columns groupFeature = Except.ok (some flatBodyTpl) := by
  unfold generateBody
  simp

/-- With grouping active, `normStep` on a column that is neither a
rownumberer nor a templatecolumn reduces to the last branch's test. -/
theorem normStep_grouped (gf : Option String) (c : Column)
    (h1 : c.xtype ≠ "rownumberer") (h2 : c.xtype ≠ "templatecolumn") :
    normStep true gf c
      = if c.dataIndex ≠ gf ∧ c.xtype ≠ "actioncolumn" then some c else none := by
  unfold normStep
  simp [h1, h2]

theorem normalizeIndexedFrom_map_snd (n : Nat) (cols : List (Option Column))
    (g : Bool) (gf : Option String) :
    (normalizeIndexedFrom n cols g gf).map Prod.snd = normalizeColumns cols g gf := by
  induction cols generalizing n with
  | nil => rfl
  | cons oc rest ih =>
      unfold normalizeIndexedFrom normalizeColumns
      cases h : oc.bind (normStep g gf) with
      | none => simpa [h, normalizeColumns] using ih (n + 1)
      | some c => simpa [h, normalizeColumns] using ih (n + 1)

theorem normalizeIndexedFrom_bound_pairwise (n : Nat) (cols : List (Option Column))
    (g : Bool) (gf : Option String) :
    (∀ p ∈ normalizeIndexedFrom n cols g gf, n ≤ p.1)
    ∧ List.Pairwise (fun a b : Nat × Column => a.1 < b.1)
        (normalizeIndexedFrom n cols g gf) := by
  induction cols generalizing n with
  | nil => exact ⟨by intro p hp; simp [normalizeIndexedFrom] at hp, by simp [normalizeIndexedFrom]⟩
  | cons oc rest ih =>
      unfold normalizeIndexedFrom
      cases h : oc.bind (normStep g gf) with
      | none =>
          refine ⟨fun p hp => ?_, (ih (n + 1)).2⟩
          exact Nat.le_of_succ_le ((ih (n + 1)).1 p hp)
      | some c =>
          refine ⟨fun p hp => ?_, ?_⟩
          · rcases List.mem_cons.mp hp with h0 | h0
            · simp [h0]
            · exact Nat.le_of_succ_le ((ih (n + 1)).1 p h0)
          · refine List.pairwise_cons.mpr ⟨fun p hp => ?_, (ih (n + 1)).2⟩
            exact Nat.lt_of_succ_le ((ih (n + 1)).1 p hp)

/-- A column emitted by the non-grouped filter with `hidden` set can only
have come through the rownumberer or templatecolumn branch. -/
theorem mem_normalize_hidden (cols : List (Option Column)) (gf : Option String)
    (d : Column) (hd : d ∈ normalizeColumns cols false gf) (hh : d.hidden = true) :
    d.xtype = "rownumberer" ∨ d.xtype = "templatecolumn" := by
  unfold normalizeColumns at hd
  rw [List.mem_filterMap] at hd
  obtain ⟨oc, _, hoc⟩ := hd
  cases oc with
  | none => simp at hoc
  | some c =>
      rw [Option.some_bind] at hoc
      unfold normStep at hoc
      simp only [Bool.false_eq_true, false_and, and_false, if_false] at hoc
      split_ifs at hoc with ha hb hc
      · cases hoc
        rw [ha.2.1] at hh
        cases hh
      · cases hoc
        left
        unfold withRowText
        split_ifs <;> simpa using hb
      · cases hoc
        right
        exact hc

/-!  Concrete fixtures used by counterexamples and witnesses. -/

/-- A plain visible data column whose dataIndex is not the group field. -/
def colA : Column := { dataIndex := some "a" }

/-- A hidden plain data column. -/
def colHidden : Column := { dataIndex := some "a", hidden := true }

/-- A hidden rownumberer column with a label. -/
def colRowNum : Column := { xtype := "rownumberer", hidden := true, text := "R" }

/-!  Claim theorems. -/

/-- C10: for every grid, column list and grouping feature, `generateBody`
returns the flat per-column body template string — the guard tests the
local `groups` while it is still the empty array initialized at the top of
the function, so the grouped branch (group-header rows, per-group parity,
per-group summary rows) is unreachable for all inputs. -/
theorem generateBody_always_flat_c10 (grid : Grid) (columns : List Column)
    (groupFeature : Option Feature) :
    generateBody grid columns groupFeature = Except.ok (some flatBodyTpl) :=
  generateBody_eq_flat grid columns groupFeature

/-- C1 counterexample: with grouping active, a plain data column whose
dataIndex DIFFERS from the group field and which is not an action column IS
included by the column filter — the claim says such a column must be
excluded (included only if it equals the group field or is action-kind). -/
theorem normalize_grouped_includes_nongroup_column :
    normalizeColumns [some colA] true (some "g") = [colA]
    ∧ colA.dataIndex ≠ some "g"
    ∧ colA.xtype ≠ "actioncolumn"
    ∧ colA.xtype ≠ "rownumberer"
    ∧ colA.xtype ≠ "templatecolumn" :=
  ⟨rfl, by decide, by decide, by decide, by decide⟩

/-- C1 (amended): for a raw column normalized with grouping active, a
column that is not a row-numbering or template column is included in the
normalized output if and only if its dataIndex DIFFERS from the group field
and it is NOT an action-kind column (the source's line 214-218 keeps
exactly those columns; the group-field column and action columns are the
excluded ones). -/
theorem normalize_grouped_inclusion_iff (gf : Option String) (c : Column)
    (h1 : c.xtype ≠ "rownumberer") (h2 : c.xtype ≠ "templatecolumn") :
    normalizeColumns [some c] true gf = [c]
      ↔ (c.dataIndex ≠ gf ∧ c.xtype ≠ "actioncolumn") := by
  unfold normalizeColumns
  simp only [List.filterMap_cons, List.filterMap_nil, Option.some_bind,
    normStep_grouped gf c h1 h2]
  constructor
  · intro h
    by_cases hc : c.dataIndex ≠ gf ∧ c.xtype ≠ "actioncolumn"
    · exact hc
    · rw [if_neg hc] at h
      cases h
  · intro hc
    rw [if_pos hc]

/-- C1 witness: the amended inclusion rule applied at a concrete grouped
column list. -/
theorem normalize_grouped_inclusion_iff_witness :
    normalizeColumns [some colA] true (some "g") = [colA] :=
  (normalize_grouped_inclusion_iff (some "g") colA (by decide) (by decide)).mpr
    ⟨by decide, by decide⟩

/-- C3 counterexample: with grouping active the hidden flag is not
consulted for plain data columns, so a hidden data column IS present in the
normalized output — the claim says it never is, for any value of
isGrouped. -/
theorem normalize_grouped_includes_hidden_column :
    normalizeColumns [some colHidden] true (some "g") = [colHidden]
    ∧ colHidden.hidden = true
    ∧ colHidden.xtype ≠ "rownumberer"
    ∧ colHidden.xtype ≠ "templatecolumn" :=
  ⟨rfl, rfl, by decide, by decide⟩

/-- C3 (amended): the normalized column list preserves the relative order
of the input (each emitted column carries a strictly increasing source
position), and when the dataset is NOT grouped a hidden column can be
present only through the rownumberer or templatecolumn branches — a hidden
plain data column is never present. (When grouped, hiddenness is not
consulted for data columns, see the counterexample.) -/
theorem normalize_order_preserved_and_hidden_excluded (cols : List (Option Column))
    (g : Bool) (gf : Option String) :
    (normalizeIndexed cols g gf).map Prod.snd = normalizeColumns cols g gf
    ∧ List.Pairwise (fun a b : Nat × Column => a.1 < b.1) (normalizeIndexed cols g gf)
    ∧ ∀ d ∈ normalizeColumns cols false gf, d.hidden = true →
        d.xtype = "rownumberer" ∨ d.xtype = "templatecolumn" :=
  ⟨normalizeIndexedFrom_map_snd 0 cols g gf,
   (normalizeIndexedFrom_bound_pairwise 0 cols g gf).2,
   fun d hd hh => mem_normalize_hidden cols gf d hd hh⟩

/-- C3 witness: the amended statement applied at a concrete column list
containing a hidden rownumberer (the only way a hidden column can survive
the non-grouped filter). -/
theorem normalize_order_preserved_witness :
    colRowNum.xtype = "rownumberer" ∨ colRowNum.xtype = "templatecolumn" :=
  (normalize_order_preserved_and_hidden_excluded [some colRowNum] false none).2.2
    colRowNum (show colRowNum ∈ [colRowNum] from List.mem_singleton_self colRowNum) rfl

/-- A concrete meta object for the Cell Formatter counterexample. -/
def meta0 : Meta := { align := .str "left", cellIndex := .num 1 }

/-- C5 counterexample: `Ext.isDefined(null)` is true, so a null final value
is NOT replaced by the non-breaking-space placeholder — it renders as the
text "null" (JavaScript string coercion), contradicting the claim that an
undefined or null final value renders as the placeholder. -/
theorem getHtml_null_renders_null :
    FlatTpl.getHtml .null meta0 = FlatTpl.cellOpen meta0 ++ "null" ++ "</div></td>"
    ∧ FlatTpl.getHtml .null meta0 ≠ FlatTpl.cellOpen meta0 ++ "&nbsp;" ++ "</div></td>" :=
  ⟨rfl, by decide⟩

/-- C5 (amended): if the final cell value is UNdefined, the emitted display
value is the non-breaking-space placeholder and never the empty string; a
null final value instead renders as the text "null". -/
theorem getHtml_undef_placeholder (meta : Meta) :
    FlatTpl.getHtml .undefined meta = FlatTpl.cellOpen meta ++ "&nbsp;" ++ "</div></td>"
    ∧ FlatTpl.getHtml .null meta = FlatTpl.cellOpen meta ++ "null" ++ "</div></td>"
    ∧ "&nbsp;" ≠ "" :=
  ⟨rfl, rfl, by decide⟩

/-- Folding `total += record.get(field)` from a numeric accumulator over
records whose field values are all numbers yields the arithmetic sum. -/
theorem foldl_jsAdd_num (field : Option String) (rs : List Record) :
    ∀ (qs : List Rat) (acc : Rat),
      rs.map (fun r => recordGetO r field) = qs.map SVal.num →
      rs.foldl (fun total r => jsAdd total (recordGetO r field)) (.num acc)
        = .num (acc + qs.sum) := by
  induction rs with
  | nil =>
      intro qs acc h
      cases qs with
      | nil => simp
      | cons q rest => simp at h
  | cons r rest ih =>
      intro qs acc h
      cases qs with
      | nil => simp at h
      | cons q qrest =>
          simp only [List.map_cons, List.cons.injEq] at h
          obtain ⟨h1, h2⟩ := h
          simp only [List.foldl_cons, h1]
          have hstep : jsAdd (.num acc) (.num q) = .num (acc + q) := rfl
          rw [hstep, ih qrest (acc + q) h2, List.sum_cons]
          ring_nf

/-- C4: in flat mode the `count` aggregate is the collection's length and
`sum` is the arithmetic sum of the field over the collection (when the
field is numeric on every record); the five built-in names dispatch to the
matching store built-ins; an unknown non-empty type yields the empty
mapping when grouped and the empty string otherwise; an absent or falsy
type yields undefined. -/
theorem getSummary_spec (store : Store) (field : Option String) (grouped : Bool)
    (s : String) (qs : List Rat) :
    (FlatTpl.getSummary store (.name "count") field false = .num store.records.length)
    ∧ (store.records.map (fun r => recordGetO r field) = qs.map SVal.num →
        FlatTpl.getSummary store (.name "sum") field false = .num qs.sum)
    ∧ (FlatTpl.getSummary store (.name "count") field grouped = storeCount store grouped
       ∧ FlatTpl.getSummary store (.name "min") field grouped = storeMin store field grouped
       ∧ FlatTpl.getSummary store (.name "max") field grouped = storeMax store field grouped
       ∧ FlatTpl.getSummary store (.name "sum") field grouped = storeSum store field grouped
       ∧ FlatTpl.getSummary store (.name "average") field grouped
           = storeAverage store field grouped)
    ∧ (s ≠ "" → s ≠ "count" → s ≠ "min" → s ≠ "max" → s ≠ "sum" → s ≠ "average" →
        FlatTpl.getSummary store (.name s) field grouped
          = if grouped then SVal.mkObj [] else .str "")
    ∧ (FlatTpl.getSummary store .undefined field grouped = .undefined
       ∧ FlatTpl.getSummary store (.name "") field grouped = .undefined) := by
  refine ⟨rfl, ?_, ⟨rfl, rfl, rfl, rfl, rfl⟩, ?_, rfl, rfl⟩
  · intro h
    show storeSum store field false = SVal.num qs.sum
    unfold storeSum storeAgg recordsSum
    simpa using foldl_jsAdd_num field store.records qs 0 h
  · intro h0 h1 h2 h3 h4 h5
    have e : FlatTpl.getSummary store (.name s) field grouped
        = (if s = "" then SVal.undefined
           else if s = "count" then storeCount store grouped
           else if s = "min" then storeMin store field grouped
           else if s = "max" then storeMax store field grouped
           else if s = "sum" then storeSum store field grouped
           else if s = "average" then storeAverage store field grouped
           else if grouped then SVal.mkObj [] else SVal.str "") := rfl
    rw [e, if_neg h0, if_neg h1, if_neg h2, if_neg h3, if_neg h4, if_neg h5]

/-- The store of end-to-end scenario C: three flat records with a numeric
age field. -/
def store3 : Store :=
  { records := [[("age", .num 1)], [("age", .num 2)], [("age", .num 3)]] }

/-- C4 witness: the aggregate calculator evaluated on a concrete
collection. -/
theorem getSummary_spec_witness :
    FlatTpl.getSummary store3 (.name "count") (some "age") false = .num 3
    ∧ FlatTpl.getSummary store3 (.name "sum") (some "age") false = .num 6
    ∧ FlatTpl.getSummary store3 (.name "bogus") (some "age") false = .str ""
    ∧ FlatTpl.getSummary store3 (.name "bogus") (some "age") true = SVal.mkObj []
    ∧ FlatTpl.getSummary store3 .undefined (some "age") false = .undefined := by
  refine ⟨?_, ?_, ?_, ?_, ?_⟩
  · exact ((getSummary_spec store3 (some "age") false "bogus" []).1).trans
      (by rw [SVal.num.injEq]; norm_num [store3])
  · exact ((getSummary_spec store3 (some "age") false "bogus" [1, 2, 3]).2.1 rfl).trans
      (by rw [SVal.num.injEq]; norm_num)
  · exact (getSummary_spec store3 (some "age") false "bogus" []).2.2.2.1
      (by decide) (by decide) (by decide) (by decide) (by decide) (by decide)
  · exact (getSummary_spec store3 (some "age") true "bogus" []).2.2.2.1
      (by decide) (by decide) (by decide) (by decide) (by decide) (by decide)
  · exact (getSummary_spec store3 (some "age") false "bogus" []).2.2.2.2.1

/-- C6: for a column with a configured renderer (and not a templatecolumn),
`renderColumn` invokes the renderer with the argument tuple
`(rawValue, meta, record, -1, columnOrdinal - 1, store, view)` and renders
the renderer's return value in place of the raw value; with no renderer
configured the raw value is rendered unchanged. -/
theorem renderColumn_renderer_invocation (grid : Grid) (c : Column) (v : SVal)
    (rcd : Record) (i : Nat) (hN : c.xtype ≠ "templatecolumn") :
    (∀ r, c.renderer = some r →
      FlatTpl.renderColumn grid c v rcd i
        = FlatTpl.getHtml
            (r { value := v, meta := FlatTpl.mkMeta grid c v rcd i, record := rcd,
                 rowIndex := -1, colIndex := (i : Int) - 1, store := grid.store, view := () })
            (FlatTpl.mkMeta grid c v rcd i))
    ∧ (c.renderer = none →
        FlatTpl.renderColumn grid c v rcd i
          = FlatTpl.getHtml v (FlatTpl.mkMeta grid c v rcd i)) := by
  constructor
  · intro r hr
    simp only [FlatTpl.renderColumn]
    rw [if_neg hN, hr]
  · intro hr
    simp only [FlatTpl.renderColumn]
    rw [if_neg hN, hr]

/-- A concrete renderer returning a fixed marker value. -/
def rendererX : RenderArgs → SVal := fun _ => .str "R!"

/-- A data column carrying `rendererX`. -/
def colWithRenderer : Column := { dataIndex := some "a", renderer := some rendererX }

/-- C6 witness: the renderer invocation contract applied at a concrete
column, record and ordinal. -/
theorem renderColumn_renderer_invocation_witness :
    FlatTpl.renderColumn { columns := [], store := { records := [] } } colWithRenderer
        (.str "raw") [("a", .str "raw")] 1
      = FlatTpl.getHtml
          (rendererX
            { value := .str "raw"
              meta := FlatTpl.mkMeta { columns := [], store := { records := [] } }
                colWithRenderer (.str "raw") [("a", .str "raw")] 1
              record := [("a", .str "raw")]
              rowIndex := -1
              colIndex := (1 : Int) - 1
              store := { records := [] }
              view := () })
          (FlatTpl.mkMeta { columns := [], store := { records := [] } } colWithRenderer
            (.str "raw") [("a", .str "raw")] 1) :=
  (renderColumn_renderer_invocation { columns := [], store := { records := [] } }
      colWithRenderer (.str "raw") [("a", .str "raw")] 1 (by decide)).1 rendererX rfl

/-- A defined value renders verbatim through `getHtml` (the undefined
substitution does not fire). -/
theorem getHtml_defined (v : SVal) (meta : Meta) (hv : isUndefined v = false) :
    FlatTpl.getHtml v meta = FlatTpl.cellOpen meta ++ jsPrimString v ++ "</div></td>" := by
  cases v with
  | undefined => exact absurd hv (by simp [isUndefined])
  | null => rfl
  | nan => rfl
  | bool b => rfl
  | num q => rfl
  | str s => rfl
  | arr elems => rfl
  | obj fields => rfl

/-- C7: in flat mode with a global summary feature, the trailing summary
row has one cell per column; in a cell without a custom summaryRenderer an
undefined or loosely-zero (JavaScript `== 0`) aggregate renders as the
placeholder and any other aggregate renders verbatim; a custom
summaryRenderer takes precedence and its return value is rendered
instead. -/
theorem summaryRow_spec (grid : Grid) (sf : Feature) (columns : List Column)
    (c : Column) (i : Nat) (v : SVal) :
    ((summaryRowCells grid sf columns).length = columns.length)
    ∧ (jsTruthyOptStr sf.remoteRoot = false → c.summaryRenderer = none →
        FlatTpl.getSummary grid.store c.summaryType c.dataIndex false = v →
        (isUndefined v = true ∨ looseEqZero v = true) →
        FlatTpl.renderSummary grid sf columns c i
          = FlatTpl.getHtml (.str "&nbsp;")
              (FlatTpl.getSummaryObject42 (columnSVal c) (.num i) .undefined .undefined))
    ∧ (jsTruthyOptStr sf.remoteRoot = false → c.summaryRenderer = none →
        FlatTpl.getSummary grid.store c.summaryType c.dataIndex false = v →
        isUndefined v = false → looseEqZero v = false →
        FlatTpl.renderSummary grid sf columns c i
          = FlatTpl.cellOpen (FlatTpl.getSummaryObject42 (columnSVal c) (.num i) .undefined .undefined)
              ++ jsPrimString v ++ "</div></td>")
    ∧ (∀ r, jsTruthyOptStr sf.remoteRoot = false → c.summaryRenderer = some r →
        FlatTpl.getSummary grid.store c.summaryType c.dataIndex false = v →
        FlatTpl.renderSummary grid sf columns c i
          = FlatTpl.getHtml
              (r { value := v
                   meta := FlatTpl.getSummaryObject42 v (columnSVal c) (.num i)
                     (SVal.mkObj (FlatTpl.getSummaryRecord42 grid sf columns))
                   record := FlatTpl.getSummaryRecord42 grid sf columns
                   rowIndex := -1
                   colIndex := i
                   store := grid.store
                   view := () })
              (FlatTpl.getSummaryObject42 v (columnSVal c) (.num i)
                (SVal.mkObj (FlatTpl.getSummaryRecord42 grid sf columns)))) := by
  refine ⟨?_, ?_, ?_, ?_⟩
  · simp [summaryRowCells]
  · intro hRem hRen hV hZ
    simp only [FlatTpl.renderSummary, hRem, Bool.false_eq_true, if_false, hRen, hV]
    rw [if_pos hZ]
  · intro hRem hRen hV hU hZ
    simp only [FlatTpl.renderSummary, hRem, Bool.false_eq_true, if_false, hRen, hV]
    rw [if_neg (by simp [hU, hZ])]
    exact getHtml_defined v _ hU
  · intro r hRem hRen hV
    simp only [FlatTpl.renderSummary, hRem, Bool.false_eq_true, if_false, hRen, hV]

/-- A summary feature with local (non-remote) aggregates. -/
def summaryFeatureLocal : Feature := { ftype := "summary" }

/-- The age column of scenario C, summarized with `sum`. -/
def colAge : Column := { dataIndex := some "age", summaryType := .name "sum" }

/-- A name column with no summaryType. -/
def colName : Column := { dataIndex := some "name" }

/-- A column whose custom summaryRenderer returns a fixed marker value. -/
def colCustom : Column := { dataIndex := some "age", summaryType := .name "sum",
                            summaryRenderer := some rendererX }

/-- The scenario C grid: flat store of three records, summary feature. -/
def gridC : Grid :=
  { columns := [some colName, some colAge], store := store3,
    features := [summaryFeatureLocal] }

/-- The age sum over `store3` evaluates to 6. -/
theorem store3_sum_eq :
    FlatTpl.getSummary store3 (.name "sum") (some "age") false = .num 6 := by
  have h : FlatTpl.getSummary store3 (.name "sum") (some "age") false
      = .num (0 + 1 + 2 + 3) := rfl
  rw [h, SVal.num.injEq]
  norm_num

/-- C7 witness: the trailing summary row on the scenario C grid — two cells
for two columns, the column without a summaryType renders the placeholder,
the `sum` column renders 6 verbatim, and a custom summaryRenderer's value
wins. -/
theorem summaryRow_spec_witness :
    (summaryRowCells gridC summaryFeatureLocal [colName, colAge]).length = 2
    ∧ FlatTpl.renderSummary gridC summaryFeatureLocal [colName, colAge] colName 1
        = FlatTpl.getHtml (.str "&nbsp;")
            (FlatTpl.getSummaryObject42 (columnSVal colName) (.num 1) .undefined .undefined)
    ∧ FlatTpl.renderSummary gridC summaryFeatureLocal [colName, colAge] colAge 2
        = FlatTpl.cellOpen (FlatTpl.getSummaryObject42 (columnSVal colAge) (.num 2) .undefined .undefined)
            ++ jsPrimString (.num 6) ++ "</div></td>"
    ∧ FlatTpl.renderSummary gridC summaryFeatureLocal [colName, colAge] colCustom 2
        = FlatTpl.getHtml
            (rendererX
              { value := .num 6
                meta := FlatTpl.getSummaryObject42 (.num 6) (columnSVal colCustom) (.num 2)
                  (SVal.mkObj (FlatTpl.getSummaryRecord42 gridC summaryFeatureLocal
                    [colName, colAge]))
                record := FlatTpl.getSummaryRecord42 gridC summaryFeatureLocal [colName, colAge]
                rowIndex := -1
                colIndex := 2
                store := gridC.store
                view := () })
            (FlatTpl.getSummaryObject42 (.num 6) (columnSVal colCustom) (.num 2)
              (SVal.mkObj (FlatTpl.getSummaryRecord42 gridC summaryFeatureLocal
                [colName, colAge]))) := by
  refine ⟨?_, ?_, ?_, ?_⟩
  · exact (summaryRow_spec gridC summaryFeatureLocal [colName, colAge] colName 1 .undefined).1
  · exact (summaryRow_spec gridC summaryFeatureLocal [colName, colAge] colName 1 .undefined).2.1
      rfl rfl rfl (Or.inl rfl)
  · exact (summaryRow_spec gridC summaryFeatureLocal [colName, colAge] colAge 2 (.num 6)).2.2.1
      rfl rfl store3_sum_eq rfl (by decide)
  · exact (summaryRow_spec gridC summaryFeatureLocal [colName, colAge] colCustom 2
      (.num 6)).2.2.2 rendererX rfl rfl store3_sum_eq

/-- The field lookup of an empty record is undefined for any field name. -/
theorem recordGetO_nil (k : Option String) : recordGetO [] k = .undefined := by
  cases k <;> rfl

/-- The ordered scan of `getSummaryRcd` is the first-match search (`find?`)
for an entry whose field member is truthy and loosely equal to the key. -/
theorem getSummaryRcdScan_eq_find (fieldName : Option String) (value : SVal) :
    ∀ items : SVals,
      GroupTpl.getSummaryRcdScan items fieldName value
        = ((svalsToList items).find? (fun it =>
            jsTruthy (jsMemberO it fieldName) && jsLooseEq (jsMemberO it fieldName) value)).getD
            .undefined
  | .nil => rfl
  | .cons it rest => by
      have ih := getSummaryRcdScan_eq_find fieldName value rest
      cases hA : jsTruthy (jsMemberO it fieldName) with
      | false =>
          unfold GroupTpl.getSummaryRcdScan
          rw [if_neg (by simp [hA])]
          show _ = ((it :: svalsToList rest).find? _).getD .undefined
          rw [List.find?_cons_of_neg _ (by simp [hA])]
          exact ih
      | true =>
          cases hB : jsLooseEq (jsMemberO it fieldName) value with
          | false =>
              unfold GroupTpl.getSummaryRcdScan
              rw [if_neg (by simp [hB])]
              show _ = ((it :: svalsToList rest).find? _).getD .undefined
              rw [List.find?_cons_of_neg _ (by simp [hB])]
              exact ih
          | true =>
              unfold GroupTpl.getSummaryRcdScan
              rw [if_pos ⟨hA, hB⟩]
              show _ = ((it :: svalsToList rest).find? _).getD .undefined
              rw [List.find?_cons_of_pos _ (by simp [hA, hB])]
              rfl

/-- C8 (amended): the array-payload lookup scans the sequence in order and
returns the FIRST entry whose group-field member is truthy AND loosely
equal to the current group key (a falsy group-field value is skipped even
when equal, see the counterexample); no match yields undefined and the
grouped summary cell then renders the placeholder; a single-object payload
populates the summary record from the object directly. -/
theorem remoteSummary_lookup_spec (items : SVals) (fieldName : Option String) (value : SVal)
    (grid : Grid) (sf : Feature) (columns : List Column) (groupName : String)
    (c : Column) (i : Nat) (raw : List (String × SVal)) (m : SValObj) :
    (GroupTpl.getSummaryRcd (.arr items) fieldName value
      = ((svalsToList items).find? (fun it =>
            jsTruthy (jsMemberO it fieldName) && jsLooseEq (jsMemberO it fieldName) value)).getD
            .undefined)
    ∧ (jsTruthyOptStr sf.remoteRoot = true →
        sf.summaryRecord = none →
        grid.store.rawData = some raw →
        jsMember (SVal.mkObj raw) (sf.remoteRoot.getD "") = .arr items →
        GroupTpl.getSummaryRcdScan items grid.store.groupField (.str groupName) = .undefined →
        c.summaryRenderer = none →
        GroupTpl.renderSummary grid sf columns groupName c i
          = Except.ok ("<td><div>" ++ "&nbsp;" ++ "</div></td>"))
    ∧ (grid.store.rawData = some raw →
        jsMember (SVal.mkObj raw) (sf.remoteRoot.getD "") = .obj m →
        GroupTpl.remoteSummaryRecord grid sf groupName
          = recordSet (sf.summaryRecord.getD []) (.obj m)) := by
  refine ⟨getSummaryRcdScan_eq_find fieldName value items, ?_, ?_⟩
  · intro hRem hSR hRaw hPayload hMiss hRen
    have hrec : GroupTpl.remoteSummaryRecord grid sf groupName = [] := by
      unfold GroupTpl.remoteSummaryRecord
      rw [hSR, hRaw]
      show (match jsMember (SVal.mkObj raw) (sf.remoteRoot.getD "") with
        | SVal.arr elems =>
            recordSet [] (GroupTpl.getSummaryRcd (SVal.arr elems) grid.store.groupField
              (SVal.str groupName))
        | p => recordSet [] p) = []
      rw [hPayload]
      show recordSet []
          (GroupTpl.getSummaryRcdScan items grid.store.groupField (SVal.str groupName)) = []
      rw [hMiss]
      rfl
    simp only [GroupTpl.renderSummary, hRem, if_true, hrec, hRen]
    rw [recordGetO_nil]
    rfl
  · intro hRaw hPayload
    unfold GroupTpl.remoteSummaryRecord
    rw [hRaw]
    show (match jsMember (SVal.mkObj raw) (sf.remoteRoot.getD "") with
      | SVal.arr elems =>
          recordSet (sf.summaryRecord.getD []) (GroupTpl.getSummaryRcd (SVal.arr elems)
            grid.store.groupField (SVal.str groupName))
      | p => recordSet (sf.summaryRecord.getD []) p)
      = recordSet (sf.summaryRecord.getD []) (.obj m)
    rw [hPayload]

/-- A remote payload entry whose group-field value is the (falsy) number
zero. -/
def entryZeroDept : SVal := SVal.mkObj [("dept", .num 0), ("total", .num 5)]

/-- C8 counterexample: an array-payload entry whose group field is loosely
EQUAL to the group key is nevertheless skipped when that field value is
falsy (here the number 0), so the lookup misses — the claim says the first
entry whose group field equals the group key is returned. -/
theorem getSummaryRcd_skips_falsy_match :
    GroupTpl.getSummaryRcd (SVal.mkArr [entryZeroDept]) (some "dept") (.num 0) = .undefined
    ∧ jsLooseEq (jsMemberO entryZeroDept (some "dept")) (.num 0) = true :=
  ⟨rfl, rfl⟩

/-- The eng-department payload entry of end-to-end scenario D. -/
def engEntry : SVal := SVal.mkObj [("dept", .str "eng"), ("total", .num 5)]

/-- A groupingsummary feature with a remote (server-computed) summary
payload under the root "totals". -/
def remoteFeature : Feature := { ftype := "groupingsummary", remoteRoot := some "totals" }

def colTotal : Column := { dataIndex := some "total" }

/-- The scenario D store: grouped by dept, with the remote payload. -/
def storeD : Store :=
  { records := [[("dept", .str "eng"), ("total", .num 5)]],
    groupField := some "dept",
    rawData := some [("totals", SVal.mkArr [engEntry])] }

def gridD : Grid := { columns := [some colTotal], store := storeD }

/-- C8 witness: scenario D — the lookup finds the eng entry for group key
"eng", and for the absent key "sales" the lookup misses and the grouped
summary cell renders the placeholder. -/
theorem remoteSummary_lookup_spec_witness :
    GroupTpl.getSummaryRcd (SVal.mkArr [engEntry]) (some "dept") (.str "eng") = engEntry
    ∧ GroupTpl.renderSummary gridD remoteFeature [colTotal] "sales" colTotal 1
        = Except.ok ("<td><div>" ++ "&nbsp;" ++ "</div></td>") := by
  constructor
  · exact ((remoteSummary_lookup_spec (listToSVals [engEntry]) (some "dept") (.str "eng")
      gridD remoteFeature [colTotal] "sales" colTotal 1 [] SValObj.nil).1).trans (by rfl)
  · exact (remoteSummary_lookup_spec (listToSVals [engEntry]) (some "dept") (.str "eng")
      gridD remoteFeature [colTotal] "sales" colTotal 1
      [("totals", SVal.mkArr [engEntry])] SValObj.nil).2.1 rfl rfl rfl rfl rfl rfl

/-- C9: lookup misses degrade to the placeholder rather than aborting, and
the render call fails only on a structurally invalid heading template
(surfaced from the template build), never on the data: for every printer
and grid, `printDocument` returns the complete markup string exactly when
the heading template builds, and propagates the build error otherwise; a
column with no dataIndex and no renderer renders the placeholder cell, and
a column with no summaryType renders the placeholder summary cell. -/
theorem render_total_spec (p : Printer) (grid : Grid) :
    (∀ e, p.headerTpl = Except.error e → printDocument p grid = Except.error e)
    ∧ (∀ h, p.headerTpl = Except.ok h →
        printDocument p grid = Except.ok (printedDoc p grid h))
    ∧ (∀ (c : Column) (rcd : Record) (i : Nat),
        c.dataIndex = none → c.xtype ≠ "templatecolumn" → c.renderer = none →
        recordGetO rcd c.dataIndex = .undefined
        ∧ FlatTpl.renderColumn grid c (recordGetO rcd c.dataIndex) rcd i
            = FlatTpl.cellOpen (FlatTpl.mkMeta grid c .undefined rcd i) ++ "&nbsp;" ++ "</div></td>")
    ∧ (∀ (sf : Feature) (columns : List Column) (c : Column) (i : Nat),
        jsTruthyOptStr sf.remoteRoot = false → c.summaryRenderer = none →
        c.summaryType = .undefined →
        FlatTpl.renderSummary grid sf columns c i
          = FlatTpl.getHtml (.str "&nbsp;")
              (FlatTpl.getSummaryObject42 (columnSVal c) (.num i) .undefined .undefined)) := by
  refine ⟨?_, ?_, ?_, ?_⟩
  · intro e he
    simp only [printDocument]
    rw [generateBody_eq_flat, he]
    rfl
  · intro h hOk
    simp only [printDocument]
    rw [generateBody_eq_flat, hOk]
    rfl
  · intro c rcd i hDI hN hR
    have hv : recordGetO rcd c.dataIndex = .undefined := by rw [hDI]; rfl
    refine ⟨hv, ?_⟩
    simp only [FlatTpl.renderColumn]
    rw [if_neg hN, hR, hv]
    rfl
  · intro sf columns c i hRem hRen hT
    simp only [FlatTpl.renderSummary, hRem, Bool.false_eq_true, if_false, hRen, hT]
    exact if_pos (Or.inl rfl)

/-- A printer whose caller-supplied headerTpl is structurally invalid. -/
def printerBad : Printer := { headerTpl := .error "SyntaxError: bad template" }

def gridEmpty : Grid := { columns := [], store := { records := [] } }

/-- C9 witness: the totality contract at concrete inputs — a valid template
renders the complete document, an invalid one fails fast with the build
error, and the placeholder degradations at a concrete dataIndex-less
column. -/
theorem render_total_spec_witness :
    printDocument { } gridEmpty = Except.ok (printedDoc { } gridEmpty defaultHeaderTpl)
    ∧ printDocument printerBad gridEmpty = Except.error "SyntaxError: bad template"
    ∧ FlatTpl.renderColumn gridEmpty { } (recordGetO [] ({ } : Column).dataIndex) [] 1
        = FlatTpl.cellOpen (FlatTpl.mkMeta gridEmpty { } .undefined [] 1) ++ "&nbsp;" ++ "</div></td>"
    ∧ FlatTpl.renderSummary gridEmpty { ftype := "summary" } [] { } 1
        = FlatTpl.getHtml (.str "&nbsp;")
            (FlatTpl.getSummaryObject42 (columnSVal { }) (.num 1) .undefined .undefined) := by
  refine ⟨?_, ?_, ?_, ?_⟩
  · exact (render_total_spec { } gridEmpty).2.1 defaultHeaderTpl rfl
  · exact (render_total_spec printerBad gridEmpty).1 "SyntaxError: bad template" rfl
  · exact ((render_total_spec { } gridEmpty).2.2.1 { } [] 1 rfl (by decide) rfl).2
  · exact (render_total_spec { } gridEmpty).2.2.2 { ftype := "summary" } [] { } 1 rfl rfl rfl

/-- The grouping feature of end-to-end scenario B. -/
def groupingFeature : Feature := { ftype := "grouping" }

/-- The scenario B store: three records in two dept groups (sizes 2 and
1), pre-sorted by the grouper. -/
def storeB : Store :=
  { records :=
      [[("name", .str "ann"), ("age", .num 34), ("dept", .str "eng")],
       [("name", .str "bob"), ("age", .num 25), ("dept", .str "eng")],
       [("name", .str "cid"), ("age", .num 41), ("dept", .str "sales")]],
    groupField := some "dept" }

/-- The scenario B grid: name and age columns, grouped by dept. -/
def gridB : Grid :=
  { columns := [some colName, some { dataIndex := some "age" }],
    panelColumns := [colName, { dataIndex := some "age" }],
    store := storeB, features := [groupingFeature] }

set_option maxHeartbeats 4000000 in
set_option maxRecDepth 100000 in
/-- C2: what the code actually renders for end-to-end scenario B (2
columns, group field dept, groups of sizes 2 and 1). Because `generateBody`
always returns the flat body template and the main template breaks after
the first record when the grouping flag is truthy, the document contains 1
heading row, NO group-header rows and a SINGLE body row (class "odd") — not
the claimed 2 group-header rows and 3 body rows with per-group parity. -/
theorem scenarioB_grouped_render_collapses :
    (printDocument { } gridB).map
        (fun doc =>
          (countOccur doc "<tr class=\"group-header\">",
           countOccur doc "<tr class=\"odd\">",
           countOccur doc "<tr class=\"even\">",
           countOccur doc "<tr>"))
      = Except.ok (0, 1, 0, 1) := by
  rfl


end GridPrinter
